import Mathlib

/-!
# Verification of the `common-react` validation/mapping core

Shallow embedding of the two pure utilities of this repository:

* the password-policy validator (`validatePassword`,
  `validatePasswordSingleError` in `src/unnamed/part_002`), and
* the auth-error mapper (`mapAuthError`, `extractAuthError` in
  `src/src/utils/auth-error-mapper.ts`),

followed by theorems settling the frozen claims about them.

Modelling conventions:

* A JS string is modelled as a Lean `String`; `password.length` is
  `String.length` (code points; the claims do not exercise surrogate
  pairs), and a `\p{..}` regex `.test` is `String.data.any` of the
  corresponding character-class predicate.
* The JS regexes `\p{Lu}`, `\p{Ll}`, `\p{N}`, `\p{L}`, `\p{Zs}` consult
  the Unicode general-category tables, which are an external primitive of
  the JS runtime.  The validator is therefore parameterised by a
  `UnicodeClassifier` bundling those five predicates, and theorems hold
  for every classifier; `asciiClassifier` instantiates it with the
  Unicode general categories restricted to ASCII (on which the real
  tables agree with it) for concrete evaluations.
* Untyped JS payloads are modelled by the inductive `JsValue`
  (null, undefined, booleans, integer numbers, strings, arrays, plain
  objects, and native host functions such as the `Object.prototype`
  members).  JS truthiness, `typeof`, own-property access and
  property-key string conversion are modelled by `JsValue.truthy`,
  `JsValue.typeof`, `JsValue.getField` and `JsValue.toPropKey`.
* The bracket access `errorMap[errorCode]` walks the prototype chain of
  the object literal: after the fifteen own keys it finds the inherited
  `Object.prototype` members (`toString`, `constructor`,
  `hasOwnProperty`, …, and the `__proto__` accessor, which yields
  `Object.prototype` itself).  `errorMapGet` models this two-step
  lookup.  The dotted accesses `data.error`, `error.code` and
  `error.message` use keys that are not `Object.prototype` members, so
  plain own-property access (`getField`) is faithful for them.
-/

/-- `PasswordPolicyConfig` from `src/unnamed/part_002`. -/
structure PasswordPolicyConfig where
  minLength : Nat
  requireUppercase : Bool
  requireLowercase : Bool
  requireNumber : Bool
  requireSymbol : Bool
deriving DecidableEq, Repr

/-- `PasswordValidationResult` from `src/unnamed/part_002`. -/
structure PasswordValidationResult where
  isValid : Bool
  errors : List String
deriving DecidableEq, Repr

/-- The Unicode general-category predicates the source's regexes consult:
`isUpper` is `\p{Lu}`, `isLower` is `\p{Ll}`, `isNumber` is `\p{N}`,
`isLetter` is `\p{L}`, `isSpaceSep` is `\p{Zs}`. -/
structure UnicodeClassifier where
  isUpper : Char → Bool
  isLower : Char → Bool
  isNumber : Char → Bool
  isLetter : Char → Bool
  isSpaceSep : Char → Bool

/-- The Unicode general categories restricted to ASCII: on code points
below `0x80` these agree exactly with the full Unicode tables
(`A–Z` is `Lu`, `a–z` is `Ll`, `0–9` is `Nd ⊆ N`, `U+0020` is the only
ASCII `Zs`, and the ASCII letters are exactly `A–Z ∪ a–z`). -/
def asciiClassifier : UnicodeClassifier where
  isUpper c := 'A' ≤ c && c ≤ 'Z'
  isLower c := 'a' ≤ c && c ≤ 'z'
  isNumber c := '0' ≤ c && c ≤ '9'
  isLetter c := ('A' ≤ c && c ≤ 'Z') || ('a' ≤ c && c ≤ 'z')
  isSpaceSep c := c = ' '

/-- The length-rule message: `` `Password must be at least ${policy.minLength} characters long` ``. -/
def lengthMsg (minLength : Nat) : String :=
  "Password must be at least " ++ (toString minLength ++ " characters long")

/-- The uppercase-rule message. -/
def upperMsg : String := "Password must contain at least one uppercase letter"

/-- The lowercase-rule message. -/
def lowerMsg : String := "Password must contain at least one lowercase letter"

/-- The number-rule message. -/
def numberMsg : String := "Password must contain at least one number"

/-- The symbol-rule message. -/
def symbolMsg : String := "Password must contain at least one symbol (special character)"

/-- `validatePassword` from `src/unnamed/part_002`: pushes one message per
failed rule, in order length, uppercase, lowercase, number, symbol.
`/\p{Lu}/u.test(password)` is `password.data.any uc.isUpper`, and the
symbol regex `/[^\p{L}\p{N}\p{Zs}]/u` matches a character that is not a
letter, not a number and not a space separator. -/
def validatePassword (uc : UnicodeClassifier) (password : String)
    (policy : PasswordPolicyConfig) : PasswordValidationResult :=
  let errors : List String :=
    (if password.length < policy.minLength then [lengthMsg policy.minLength] else [])
    ++ (if policy.requireUppercase && !(password.data.any uc.isUpper)
        then [upperMsg] else [])
    ++ (if policy.requireLowercase && !(password.data.any uc.isLower)
        then [lowerMsg] else [])
    ++ (if policy.requireNumber && !(password.data.any uc.isNumber)
        then [numberMsg] else [])
    ++ (if policy.requireSymbol &&
            !(password.data.any fun c => !(uc.isLetter c || uc.isNumber c || uc.isSpaceSep c))
        then [symbolMsg] else [])
  { isValid := errors.isEmpty, errors := errors }

/-- `validatePasswordSingleError` from `src/unnamed/part_002`:
`result.errors.length > 0 ? (result.errors[0] || null) : null`; the JS
`|| null` turns an empty-string first message into `null`. -/
def validatePasswordSingleError (uc : UnicodeClassifier) (password : String)
    (policy : PasswordPolicyConfig) : Option String :=
  let result := validatePassword uc password policy
  if result.isValid then none
  else if result.errors.length > 0 then
    match result.errors[0]? with
    | some e => if e = "" then none else some e
    | none => none
  else none

/-- The spec's end-to-end example: policy `{minLength: 8, all rules on}`
and input `"pass"` produce exactly the length, uppercase, number and
symbol messages (the lowercase rule passes). -/
theorem spec_end_to_end_example :
    validatePassword asciiClassifier "pass"
      ⟨8, true, true, true, true⟩ =
    ⟨false, [lengthMsg 8, upperMsg, numberMsg, symbolMsg]⟩ := by decide

/-! ## The auth-error mapper (`src/src/utils/auth-error-mapper.ts`) -/

/-- Untyped JS runtime values: the payloads `extractAuthError` receives
and the values `errorMap[errorCode]` can produce.  Numbers are modelled
as integers (the claims exercise no fractional values); `nativeFn name`
stands for a native host function such as `Object.prototype.toString`,
identified by its name. -/
inductive JsValue where
  | null
  | undefined
  | bool (b : Bool)
  | num (n : Int)
  | str (s : String)
  | arr (elems : List JsValue)
  | obj (fields : List (String × JsValue))
  | nativeFn (name : String)

namespace JsValue

/-- JS truthiness: `null`, `undefined`, `false`, `0`, `""` are falsy;
every array, object and function is truthy. -/
def truthy : JsValue → Bool
  | .null => false
  | .undefined => false
  | .bool b => b
  | .num n => n != 0
  | .str s => s != ""
  | .arr _ => true
  | .obj _ => true
  | .nativeFn _ => true

/-- JS `typeof` (note `typeof null` is `"object"`, as in JS). -/
def typeof : JsValue → String
  | .null => "object"
  | .undefined => "undefined"
  | .bool _ => "boolean"
  | .num _ => "number"
  | .str _ => "string"
  | .arr _ => "object"
  | .obj _ => "object"
  | .nativeFn _ => "function"

/-- The JS `=== null` test. -/
def isNull : JsValue → Bool
  | .null => true
  | _ => false

/-- Own-property access `v.k`: `undefined` on anything but an object with
the key present. -/
def getField (v : JsValue) (k : String) : JsValue :=
  match v with
  | .obj fields =>
    match fields.lookup k with
    | some w => w
    | none => .undefined
  | _ => .undefined

mutual

/-- JS ToPropertyKey / ToString used by `errorMap[errorCode]` when the
runtime value of `errorCode` is not a string: numbers print in decimal,
arrays join their elements with `","` (holes, `null` and `undefined`
joining as `""`), plain objects print as `"[object Object]"`. -/
def toPropKey : JsValue → String
  | .null => "null"
  | .undefined => "undefined"
  | .bool b => if b then "true" else "false"
  | .num n => toString n
  | .str s => s
  | .arr es => toPropKeyList es
  | .obj _ => "[object Object]"
  | .nativeFn name => "function " ++ name ++ "() \x7b [native code] \x7d"
  termination_by structural v => v

/-- `Array.prototype.join ","` over the elements' string conversions;
`null` and `undefined` elements join as `""`. -/
def toPropKeyList : List JsValue → String
  | [] => ""
  | [.null] => ""
  | [.undefined] => ""
  | [v] => toPropKey v
  | .null :: vs => "," ++ toPropKeyList vs
  | .undefined :: vs => "," ++ toPropKeyList vs
  | v :: vs => toPropKey v ++ "," ++ toPropKeyList vs
  termination_by structural vs => vs

end

end JsValue

/-- JS `a || b` on modelled values. -/
def jsOr (a b : JsValue) : JsValue := if a.truthy then a else b

/-- Lift the result of an own-property table lookup back to a JS value
(`undefined` when the key is absent). -/
def optStr : Option String → JsValue
  | some s => .str s
  | none => .undefined

/-- The generic fallback message of `mapAuthError`. -/
def genericFallback : String := "An error occurred. Please try again."

/-- The `errorMap` literal of `mapAuthError`, in source order. -/
def errorMap : List (String × String) := [
  ("invalid_credentials", "Invalid email or password. Please check your credentials and try again."),
  ("invalid_email", "Please enter a valid email address."),
  ("invalid_password", "Password does not meet requirements. Please check the password policy."),
  ("user_already_exists", "An account with this email already exists. Please sign in instead."),
  ("email_already_registered", "An account with this email already exists. Please sign in instead."),
  ("csrf_token_invalid", "Security token expired. Please refresh the page and try again."),
  ("csrf_token_missing", "Security token missing. Please refresh the page and try again."),
  ("csrf_token_expired", "Security token expired. Please refresh the page and try again."),
  ("rate_limit_exceeded", "Too many attempts. Please wait a moment and try again."),
  ("account_locked", "Account temporarily locked due to multiple failed login attempts. Please try again in 15 minutes."),
  ("account_suspended", "Your account has been suspended. Please contact support for assistance."),
  ("service_unavailable", "Authentication service is temporarily unavailable. Please try again in a moment."),
  ("internal_error", "An unexpected error occurred. Please try again."),
  ("network_error", "Network error. Please check your connection and try again."),
  ("timeout", "Request timed out. Please try again.")]

/-- The own, function-valued members of `Object.prototype` that bracket
access on a plain object literal finds after missing the own keys
(ECMA-262 behaviour, Annex B dunder accessors included). -/
def objectProtoMembers : List (String × JsValue) := [
  ("constructor", .nativeFn "Object"),
  ("hasOwnProperty", .nativeFn "hasOwnProperty"),
  ("isPrototypeOf", .nativeFn "isPrototypeOf"),
  ("propertyIsEnumerable", .nativeFn "propertyIsEnumerable"),
  ("toLocaleString", .nativeFn "toLocaleString"),
  ("toString", .nativeFn "toString"),
  ("valueOf", .nativeFn "valueOf"),
  ("__defineGetter__", .nativeFn "__defineGetter__"),
  ("__defineSetter__", .nativeFn "__defineSetter__"),
  ("__lookupGetter__", .nativeFn "__lookupGetter__"),
  ("__lookupSetter__", .nativeFn "__lookupSetter__")]

/-- `Object.prototype` itself, as the object whose own members those
are (this is what the `__proto__` accessor yields on an object
literal). -/
def objectPrototype : JsValue := .obj objectProtoMembers

/-- The inherited part of a bracket access on an object literal: the
`__proto__` accessor returns `Object.prototype` itself, every other
`Object.prototype` member name returns the corresponding native
function, and all remaining keys miss. -/
def objectProtoLookup (k : String) : Option JsValue :=
  if k = "__proto__" then some objectPrototype
  else objectProtoMembers.lookup k

/-- The JS bracket access `errorMap[errorCode]` on the object literal:
own keys first, then the prototype chain (`Object.prototype`), then
`undefined`. -/
def errorMapGet (k : String) : JsValue :=
  match errorMap.lookup k with
  | some s => .str s
  | none =>
    match objectProtoLookup k with
    | some v => v
    | none => .undefined

/-- `mapAuthError` from `src/src/utils/auth-error-mapper.ts` at its JS
runtime semantics: `if (!errorCode) return defaultMessage || fallback;
return errorMap[errorCode] || defaultMessage || fallback`, where the
bracket access walks the prototype chain (`errorMapGet`).  An omitted
`defaultMessage` is `JsValue.undefined`. -/
def mapAuthError (errorCode defaultMessage : JsValue) : JsValue :=
  if !errorCode.truthy then jsOr defaultMessage (.str genericFallback)
  else jsOr (jsOr (errorMapGet errorCode.toPropKey) defaultMessage)
        (.str genericFallback)

/-- The `AuthError` record `{ code, message }` returned by
`extractAuthError`; the fields carry the runtime JS values. -/
structure AuthError where
  code : JsValue
  message : JsValue

/-- `extractAuthError` from `src/src/utils/auth-error-mapper.ts`:
guards `!data || typeof data !== 'object'`, then `!error`, then the
string branch, then the object branch (`error.code || 'unknown'`,
`error.message || mapAuthError(errorCode)`, final message
`mapAuthError(errorCode, errorMessage)`), else `null`. -/
def extractAuthError (data : JsValue) : Option AuthError :=
  if !data.truthy || data.typeof != "object" then none
  else
    let error := data.getField "error"
    if !error.truthy then none
    else if error.typeof == "string" then
      some { code := .str "unknown", message := error }
    else if error.typeof == "object" && !error.isNull then
      let errorCode := jsOr (error.getField "code") (.str "unknown")
      let errorMessage := jsOr (error.getField "message")
        (mapAuthError errorCode .undefined)
      some { code := errorCode, message := mapAuthError errorCode errorMessage }
    else none


/-! ## Helper lemmas about the password validator -/

/-- The 15th character of every length message is the `'b'` of `"be"`,
whatever the threshold; the other rule messages have `'c'` (`"contain"`)
there, which separates them from every length message at once. -/
theorem lengthMsg_data14 (n : Nat) : (lengthMsg n).data[14]? = some 'b' := by
  rw [lengthMsg, String.data_append, List.getElem?_append_left (by decide)]
  decide

/-- A string whose 15th character is not `'b'` is no length message. -/
theorem lengthMsg_ne (n : Nat) (m : String) (h : m.data[14]? ≠ some 'b') :
    lengthMsg n ≠ m := fun he => h (he ▸ lengthMsg_data14 n)

/-- The five rule messages are pairwise distinct, for every threshold. -/
theorem ruleMsgs_pairwise_ne (n : Nat) :
    lengthMsg n ≠ upperMsg ∧ lengthMsg n ≠ lowerMsg ∧ lengthMsg n ≠ numberMsg ∧
    lengthMsg n ≠ symbolMsg ∧ upperMsg ≠ lowerMsg ∧ upperMsg ≠ numberMsg ∧
    upperMsg ≠ symbolMsg ∧ lowerMsg ≠ numberMsg ∧ lowerMsg ≠ symbolMsg ∧
    numberMsg ≠ symbolMsg :=
  ⟨lengthMsg_ne n _ (by decide), lengthMsg_ne n _ (by decide),
   lengthMsg_ne n _ (by decide), lengthMsg_ne n _ (by decide),
   by decide, by decide, by decide, by decide, by decide, by decide⟩

/-- No rule message is the empty string. -/
theorem ruleMsgs_ne_empty (n : Nat) :
    lengthMsg n ≠ "" ∧ upperMsg ≠ "" ∧ lowerMsg ≠ "" ∧ numberMsg ≠ "" ∧
    symbolMsg ≠ "" :=
  ⟨lengthMsg_ne n _ (by decide), by decide, by decide, by decide, by decide⟩

/-- The error list of `validatePassword`, spelled out rule by rule. -/
theorem validatePassword_errors_eq (uc : UnicodeClassifier) (password : String)
    (policy : PasswordPolicyConfig) :
    (validatePassword uc password policy).errors =
    (if password.length < policy.minLength then [lengthMsg policy.minLength] else [])
    ++ (if policy.requireUppercase && !(password.data.any uc.isUpper)
        then [upperMsg] else [])
    ++ (if policy.requireLowercase && !(password.data.any uc.isLower)
        then [lowerMsg] else [])
    ++ (if policy.requireNumber && !(password.data.any uc.isNumber)
        then [numberMsg] else [])
    ++ (if policy.requireSymbol &&
            !(password.data.any fun c => !(uc.isLetter c || uc.isNumber c || uc.isSpaceSep c))
        then [symbolMsg] else []) := rfl

/-- `isValid` is the emptiness flag of the error list. -/
theorem validatePassword_isValid_eq (uc : UnicodeClassifier) (password : String)
    (policy : PasswordPolicyConfig) :
    (validatePassword uc password policy).isValid =
      (validatePassword uc password policy).errors.isEmpty := rfl

/-- Membership in a conditional singleton. -/
theorem mem_ite_singleton {c : Prop} [Decidable c] {a x : String} :
    a ∈ (if c then [x] else []) ↔ c ∧ a = x := by
  split <;> simp_all

/-- Every message the validator emits is one of the five rule messages. -/
theorem mem_errors_cases {uc : UnicodeClassifier} {password : String}
    {policy : PasswordPolicyConfig} {msg : String}
    (h : msg ∈ (validatePassword uc password policy).errors) :
    msg = lengthMsg policy.minLength ∨ msg = upperMsg ∨ msg = lowerMsg ∨
    msg = numberMsg ∨ msg = symbolMsg := by
  rw [validatePassword_errors_eq] at h
  simp only [List.mem_append, mem_ite_singleton] at h
  tauto

/-- Every message the validator emits is non-empty. -/
theorem mem_errors_ne_empty {uc : UnicodeClassifier} {password : String}
    {policy : PasswordPolicyConfig} {msg : String}
    (h : msg ∈ (validatePassword uc password policy).errors) : msg ≠ "" := by
  obtain ⟨e1, e2, e3, e4, e5⟩ := ruleMsgs_ne_empty policy.minLength
  rcases mem_errors_cases h with h | h | h | h | h <;> simp_all

/-- The validator's error list never repeats a message. -/
theorem validatePassword_errors_nodup (uc : UnicodeClassifier) (password : String)
    (policy : PasswordPolicyConfig) :
    (validatePassword uc password policy).errors.Nodup := by
  obtain ⟨h1, h2, h3, h4, h5, h6, h7, h8, h9, h10⟩ :=
    ruleMsgs_pairwise_ne policy.minLength
  rw [validatePassword_errors_eq]
  split_ifs <;> simp_all

/-! ## Claims about the password validator -/

/-- **C1.** For every password string and every fully populated policy,
`validate(password, policy)` returns a result whose `isValid` is true iff
its `errors` list is empty; every rule is evaluated (no short-circuit) and
contributes at most one message; the errors appear in the fixed order
length, uppercase, lowercase, number, symbol; and the length rule fails
exactly when `password.length < policy.minLength`, with the message
embedding the configured threshold. -/
theorem C1_validate_shape (uc : UnicodeClassifier) (password : String)
    (policy : PasswordPolicyConfig) :
    ((validatePassword uc password policy).isValid = true ↔
      (validatePassword uc password policy).errors = [])
    ∧ (validatePassword uc password policy).errors =
        (if password.length < policy.minLength then [lengthMsg policy.minLength] else [])
        ++ (if policy.requireUppercase && !(password.data.any uc.isUpper)
            then [upperMsg] else [])
        ++ (if policy.requireLowercase && !(password.data.any uc.isLower)
            then [lowerMsg] else [])
        ++ (if policy.requireNumber && !(password.data.any uc.isNumber)
            then [numberMsg] else [])
        ++ (if policy.requireSymbol && !(password.data.any fun c =>
                !(uc.isLetter c || uc.isNumber c || uc.isSpaceSep c))
            then [symbolMsg] else [])
    ∧ (lengthMsg policy.minLength ∈ (validatePassword uc password policy).errors ↔
        password.length < policy.minLength)
    ∧ lengthMsg policy.minLength =
        "Password must be at least " ++ (toString policy.minLength ++ " characters long")
    ∧ ∀ msg : String, (validatePassword uc password policy).errors.count msg ≤ 1 := by
  obtain ⟨h1, h2, h3, h4, _⟩ := ruleMsgs_pairwise_ne policy.minLength
  refine ⟨?_, validatePassword_errors_eq uc password policy, ?_, rfl, ?_⟩
  · rw [validatePassword_isValid_eq, List.isEmpty_iff]
  · rw [validatePassword_errors_eq]
    simp [List.mem_append, mem_ite_singleton, h1, h2, h3, h4]
  · exact List.nodup_iff_count_le_one.mp
      (validatePassword_errors_nodup uc password policy)

/-- **C2.** For every password and policy, the uppercase rule of `validate`
fails iff `policy.requireUppercase` is true and no character of the
password is in the Unicode uppercase-letter category (symmetrically for
lowercase and number), and the symbol rule fails iff
`policy.requireSymbol` is true and every character is a Unicode letter, a
Unicode number, or a space separator; in particular a password made only
of letters, digits and spaces fails the symbol rule, and appending a
single punctuation character such as `'!'` makes the symbol rule pass. -/
theorem C2_unicode_rules (uc : UnicodeClassifier) (password : String)
    (policy : PasswordPolicyConfig) :
    (upperMsg ∈ (validatePassword uc password policy).errors ↔
      policy.requireUppercase = true ∧ ∀ c ∈ password.data, uc.isUpper c = false)
    ∧ (lowerMsg ∈ (validatePassword uc password policy).errors ↔
        policy.requireLowercase = true ∧ ∀ c ∈ password.data, uc.isLower c = false)
    ∧ (numberMsg ∈ (validatePassword uc password policy).errors ↔
        policy.requireNumber = true ∧ ∀ c ∈ password.data, uc.isNumber c = false)
    ∧ (symbolMsg ∈ (validatePassword uc password policy).errors ↔
        policy.requireSymbol = true ∧ ∀ c ∈ password.data,
          (uc.isLetter c || uc.isNumber c || uc.isSpaceSep c) = true)
    ∧ (policy.requireSymbol = true →
        (∀ c ∈ password.data,
          (uc.isLetter c || uc.isNumber c || uc.isSpaceSep c) = true) →
        symbolMsg ∈ (validatePassword uc password policy).errors)
    ∧ ((uc.isLetter '!' || uc.isNumber '!' || uc.isSpaceSep '!') = false →
        policy.requireSymbol = true →
        symbolMsg ∉ (validatePassword uc (password.push '!') policy).errors) := by
  obtain ⟨h1, h2, h3, h4, h5, h6, h7, h8, h9, h10⟩ :=
    ruleMsgs_pairwise_ne policy.minLength
  have hsym : symbolMsg ∈ (validatePassword uc password policy).errors ↔
      policy.requireSymbol = true ∧ ∀ c ∈ password.data,
        (uc.isLetter c || uc.isNumber c || uc.isSpaceSep c) = true := by
    rw [validatePassword_errors_eq]
    simp [List.mem_append, mem_ite_singleton, h4.symm, h7.symm, h9.symm,
      h10.symm, List.any_eq_false]
    intro _
    constructor <;> intro h c hc <;> have hx := h c hc <;> revert hx <;>
      cases uc.isLetter c <;> cases uc.isNumber c <;>
      cases uc.isSpaceSep c <;> simp
  refine ⟨?_, ?_, ?_, hsym, fun hreq hall => hsym.mpr ⟨hreq, hall⟩, ?_⟩
  · rw [validatePassword_errors_eq]
    simp [List.mem_append, mem_ite_singleton, h1.symm, h5, h6, h7,
      List.any_eq_false]
  · rw [validatePassword_errors_eq]
    simp [List.mem_append, mem_ite_singleton, h2.symm, h5.symm, h8, h9,
      List.any_eq_false]
  · rw [validatePassword_errors_eq]
    simp [List.mem_append, mem_ite_singleton, h3.symm, h6.symm, h8.symm, h10,
      List.any_eq_false]
  · intro hbang hreq
    rw [validatePassword_errors_eq]
    simp [List.mem_append, mem_ite_singleton, h4.symm, h7.symm, h9.symm,
      h10.symm, String.data_push, List.any_append, hbang, hreq]

/-- Witness for C2 at the ASCII instantiation of the Unicode categories:
`"Abc 123"` (letters, digits, spaces only) fails the symbol rule, and
`"Abc 123!"` passes it. -/
theorem C2_witness :
    symbolMsg ∈ (validatePassword asciiClassifier "Abc 123"
      ⟨1, true, true, true, true⟩).errors
    ∧ symbolMsg ∉ (validatePassword asciiClassifier ("Abc 123".push '!')
      ⟨1, true, true, true, true⟩).errors :=
  ⟨(C2_unicode_rules asciiClassifier "Abc 123"
      ⟨1, true, true, true, true⟩).2.2.2.2.1 rfl (by decide),
   (C2_unicode_rules asciiClassifier "Abc 123"
      ⟨1, true, true, true, true⟩).2.2.2.2.2 (by decide) rfl⟩

/-- **C7.** For every password and policy,
`validateSingleError(password, policy)` is absent iff
`validate(password, policy).isValid` is true, and otherwise equals the
first element of `validate(password, policy).errors`. -/
theorem C7_singleError_consistent (uc : UnicodeClassifier) (password : String)
    (policy : PasswordPolicyConfig) :
    (validatePasswordSingleError uc password policy = none ↔
      (validatePassword uc password policy).isValid = true)
    ∧ ((validatePassword uc password policy).isValid = false →
        validatePasswordSingleError uc password policy =
          (validatePassword uc password policy).errors[0]?) := by
  cases herr : (validatePassword uc password policy).errors with
  | nil =>
    have hv : (validatePassword uc password policy).isValid = true := by
      rw [validatePassword_isValid_eq, herr]; rfl
    have hs : validatePasswordSingleError uc password policy = none := by
      simp [validatePasswordSingleError, hv]
    exact ⟨by simp [hs, hv], fun hfalse => by rw [hv] at hfalse; cases hfalse⟩
  | cons e t =>
    have hv : (validatePassword uc password policy).isValid = false := by
      rw [validatePassword_isValid_eq, herr]; rfl
    have hne : e ≠ "" :=
      mem_errors_ne_empty (by rw [herr]; exact List.mem_cons_self e t)
    have hs : validatePasswordSingleError uc password policy = some e := by
      simp [validatePasswordSingleError, hv, herr, hne]
    refine ⟨by simp [hs, hv], fun _ => by simp [hs, herr]⟩

/-- Witness for C7: on the spec's end-to-end example the single-error view
returns the first error of the full result. -/
theorem C7_witness :
    (validatePassword asciiClassifier "pass" ⟨8, true, true, true, true⟩).isValid
        = false
    ∧ validatePasswordSingleError asciiClassifier "pass" ⟨8, true, true, true, true⟩
        = (validatePassword asciiClassifier "pass" ⟨8, true, true, true, true⟩).errors[0]? :=
  ⟨by decide,
   (C7_singleError_consistent asciiClassifier "pass" ⟨8, true, true, true, true⟩).2
     (by decide)⟩

/-! ## Helper lemmas about the auth-error mapper -/

/-- Every message in the `errorMap` table is non-empty. -/
theorem errorMap_lookup_ne_empty {s m : String}
    (h : errorMap.lookup s = some m) : m ≠ "" := by
  simp only [errorMap, List.lookup] at h
  repeat' split at h
  all_goals simp_all
  all_goals (cases h; decide)

/-- The empty string is not a key of the table. -/
theorem errorMap_lookup_empty : errorMap.lookup "" = none := by decide

/-- A falsy code (`undefined`, `null`, `""`, `0`, `false`) takes the first
branch of `mapAuthError`. -/
theorem mapAuthError_falsy {c : JsValue} (h : c.truthy = false) (d : JsValue) :
    mapAuthError c d = jsOr d (.str genericFallback) := by
  simp [mapAuthError, h]

/-- A truthy code takes the lookup branch of `mapAuthError`. -/
theorem mapAuthError_truthy {c : JsValue} (h : c.truthy = true) (d : JsValue) :
    mapAuthError c d =
      jsOr (jsOr (errorMapGet c.toPropKey) d) (.str genericFallback) := by
  simp [mapAuthError, h]

/-- `jsOr` keeps a truthy left operand. -/
theorem jsOr_of_truthy {a : JsValue} (h : a.truthy = true) (b : JsValue) :
    jsOr a b = a := by simp [jsOr, h]

/-- `jsOr` discards a falsy left operand. -/
theorem jsOr_of_falsy {a : JsValue} (h : a.truthy = false) (b : JsValue) :
    jsOr a b = b := by simp [jsOr, h]

/-- Re-defaulting with the same right operand changes nothing. -/
theorem jsOr_jsOr_self (a b : JsValue) : jsOr (jsOr a b) b = jsOr a b := by
  cases ha : a.truthy <;> simp [jsOr, ha]

/-- The generic fallback is a truthy value. -/
theorem genericFallback_truthy : (JsValue.str genericFallback).truthy = true := by
  decide

/-- `truthy` on `undefined`, computed. -/
theorem truthy_undefined : JsValue.undefined.truthy = false := rfl

/-- `truthy` on a string value, computed. -/
theorem truthy_str (s : String) : (JsValue.str s).truthy = (s != "") := rfl

/-- The empty string names nothing on the prototype chain either. -/
theorem objectProtoLookup_empty : objectProtoLookup "" = none := rfl

/-- Every inherited `Object.prototype` member is a truthy value. -/
theorem objectProtoLookup_truthy {s : String} {v : JsValue}
    (h : objectProtoLookup s = some v) : v.truthy = true := by
  simp only [objectProtoLookup, objectPrototype, objectProtoMembers,
    List.lookup] at h
  repeat' split at h
  all_goals cases h
  all_goals rfl

/-- An own key of the table wins the bracket access. -/
theorem errorMapGet_table {s m : String} (h : errorMap.lookup s = some m) :
    errorMapGet s = .str m := by
  simp [errorMapGet, h]

/-- A key missing from both the table and the prototype chain yields
`undefined`. -/
theorem errorMapGet_none {s : String} (hown : errorMap.lookup s = none)
    (hp : objectProtoLookup s = none) : errorMapGet s = .undefined := by
  simp [errorMapGet, hown, hp]

/-- Bracket access on `errorMap` either misses entirely or returns a
truthy value (a non-empty table message or an inherited member). -/
theorem errorMapGet_cases (k : String) :
    errorMapGet k = .undefined ∨ (errorMapGet k).truthy = true := by
  unfold errorMapGet
  cases ho : errorMap.lookup k with
  | some m =>
    right
    simp [truthy_str, errorMap_lookup_ne_empty ho]
  | none =>
    cases hp : objectProtoLookup k with
    | some v =>
      right
      exact objectProtoLookup_truthy hp
    | none =>
      left
      rfl

/-- A code found in the table wins over every `defaultMessage`. -/
theorem mapAuthError_table {s m : String} (h : errorMap.lookup s = some m)
    (d : JsValue) : mapAuthError (.str s) d = .str m := by
  have hs : s ≠ "" := by
    rintro rfl
    rw [errorMap_lookup_empty] at h
    cases h
  have hm : (JsValue.str m).truthy = true := by
    simp [truthy_str, errorMap_lookup_ne_empty h]
  rw [mapAuthError_truthy (by simp [truthy_str, hs]) d]
  show jsOr (jsOr (errorMapGet s) d) (.str genericFallback) = .str m
  rw [errorMapGet_table h, jsOr_of_truthy hm, jsOr_of_truthy hm]

/-- A truthy string code missing from the table and from the prototype
chain falls back to `defaultMessage || fallback`. -/
theorem mapAuthError_notFound {s : String} (hs : s ≠ "")
    (hown : errorMap.lookup s = none) (hp : objectProtoLookup s = none)
    (d : JsValue) :
    mapAuthError (.str s) d = jsOr d (.str genericFallback) := by
  rw [mapAuthError_truthy (by simp [truthy_str, hs]) d]
  show jsOr (jsOr (errorMapGet s) d) (.str genericFallback) = _
  rw [errorMapGet_none hown hp, jsOr_of_falsy truthy_undefined]

/-- A code naming an inherited `Object.prototype` member returns that
member, whatever the `defaultMessage`. -/
theorem mapAuthError_proto {s : String} {v : JsValue}
    (hown : errorMap.lookup s = none) (hp : objectProtoLookup s = some v)
    (d : JsValue) : mapAuthError (.str s) d = v := by
  have hs : s ≠ "" := by
    rintro rfl
    rw [objectProtoLookup_empty] at hp
    cases hp
  have hv := objectProtoLookup_truthy hp
  rw [mapAuthError_truthy (by simp [truthy_str, hs]) d]
  show jsOr (jsOr (errorMapGet s) d) (.str genericFallback) = v
  rw [show errorMapGet s = v by simp [errorMapGet, hown, hp],
    jsOr_of_truthy hv, jsOr_of_truthy hv]

/-- The `error.message || mapAuthError(errorCode)` fallback is absorbed:
the final message of the object branch is `mapAuthError` of the raw
`message` value. -/
theorem mapAuthError_absorb (code d : JsValue) :
    mapAuthError code (jsOr d (mapAuthError code .undefined)) =
      mapAuthError code d := by
  have hfb := genericFallback_truthy
  cases hc : code.truthy with
  | false =>
    rw [mapAuthError_falsy hc, mapAuthError_falsy hc, mapAuthError_falsy hc]
    cases hd : d.truthy <;> simp [jsOr, hd, truthy_undefined, hfb]
  | true =>
    rw [mapAuthError_truthy hc, mapAuthError_truthy hc, mapAuthError_truthy hc]
    rcases errorMapGet_cases code.toPropKey with hg | hg
    · rw [hg]
      cases hd : d.truthy <;> simp [jsOr, hd, truthy_undefined, hfb]
    · simp only [jsOr_of_truthy hg]

/-- `mapAuthError` applied once and re-applied as its own default is the
same as applying it once: the object branch's double application changes
nothing. -/
theorem mapAuthError_idem (code : JsValue) :
    mapAuthError code (mapAuthError code .undefined) =
      mapAuthError code .undefined := by
  have h := mapAuthError_absorb code .undefined
  rwa [jsOr_of_falsy truthy_undefined] at h

/-- The object branch of `extractAuthError`, spelled out: the returned
code is `error.code || 'unknown'` and the returned message is
`mapAuthError` of that code with default `error.message ||
mapAuthError(errorCode)`. -/
theorem extractAuthError_obj (data : JsValue) (efields : List (String × JsValue))
    (h1 : data.truthy = true) (h2 : data.typeof = "object")
    (herr : data.getField "error" = .obj efields) :
    extractAuthError data = some
      { code := jsOr ((JsValue.obj efields).getField "code") (.str "unknown"),
        message := mapAuthError
          (jsOr ((JsValue.obj efields).getField "code") (.str "unknown"))
          (jsOr ((JsValue.obj efields).getField "message")
            (mapAuthError
              (jsOr ((JsValue.obj efields).getField "code") (.str "unknown"))
              .undefined)) } := by
  have hguard : (!data.truthy || data.typeof != "object") = false := by
    rw [h1, h2]; rfl
  simp only [extractAuthError, hguard, herr]
  simp [JsValue.truthy, JsValue.typeof, JsValue.isNull]

/-! ## Claims about the auth-error mapper -/

/-- **C3 (counterexample).** The claim says a code that is not in the
static table returns `defaultMessage` when supplied and non-empty, else
the generic fallback.  The code `"toString"` is not one of the fifteen
table entries, and a non-empty default `"X"` is supplied — yet the JS
bracket access `errorMap['toString']` finds the inherited
`Object.prototype.toString` function, which is truthy and is returned,
so the result is neither `"X"` nor the generic fallback. -/
theorem C3_counterexample :
    mapAuthError (.str "toString") (.str "X") = .nativeFn "toString"
    ∧ JsValue.nativeFn "toString" ≠ .str "X"
    ∧ JsValue.nativeFn "toString" ≠ .str genericFallback :=
  ⟨rfl, fun h => JsValue.noConfusion h, fun h => JsValue.noConfusion h⟩

/-- **C3 (amended).** For every code and optional `defaultMessage`,
`mapError` obeys the precedence: if the code is absent or the empty
string, it returns `defaultMessage` when supplied and non-empty, else
the generic fallback; if the code is in the static table, it returns the
table's canonical message even when a `defaultMessage` was supplied; if
the code is not in the table but names an inherited `Object.prototype`
member (`toString`, `constructor`, `hasOwnProperty`, …, `__proto__`),
the bracket access returns that inherited member, which — being truthy —
wins over every `defaultMessage` just like a table hit; only a code
missing from both the table and the prototype chain returns
`defaultMessage` when supplied and non-empty, else the generic
fallback. -/
theorem C3_mapError_precedence (c d : Option String) :
    ((c = none ∨ c = some "") →
      mapAuthError (optStr c) (optStr d) = jsOr (optStr d) (.str genericFallback))
    ∧ (∀ s m, c = some s → errorMap.lookup s = some m →
        mapAuthError (optStr c) (optStr d) = .str m)
    ∧ (∀ s v, c = some s → errorMap.lookup s = none →
        objectProtoLookup s = some v →
        mapAuthError (optStr c) (optStr d) = v)
    ∧ (∀ s, c = some s → s ≠ "" → errorMap.lookup s = none →
        objectProtoLookup s = none →
        mapAuthError (optStr c) (optStr d) = jsOr (optStr d) (.str genericFallback))
    ∧ (∀ t, d = some t → t ≠ "" → jsOr (optStr d) (.str genericFallback) = .str t)
    ∧ ((d = none ∨ d = some "") →
        jsOr (optStr d) (.str genericFallback) = .str genericFallback) := by
  refine ⟨?_, ?_, ?_, ?_, ?_, ?_⟩
  · rintro (rfl | rfl)
    · exact mapAuthError_falsy (c := optStr none) rfl _
    · exact mapAuthError_falsy (c := optStr (some "")) rfl _
  · rintro s m rfl hm
    exact mapAuthError_table hm _
  · rintro s v rfl hown hp
    exact mapAuthError_proto hown hp _
  · rintro s rfl hs hown hp
    exact mapAuthError_notFound hs hown hp _
  · rintro t rfl ht
    exact jsOr_of_truthy (by simp [optStr, truthy_str, ht]) _
  · rintro (rfl | rfl)
    · exact jsOr_of_falsy (a := optStr none) rfl _
    · exact jsOr_of_falsy (a := optStr (some "")) rfl _

/-- Witness for C3 (amended): a known code beats a supplied default, an
absent code yields the non-empty default, a prototype-member code yields
the inherited function, and a code on neither chain with no default
yields the generic fallback. -/
theorem C3_witness :
    mapAuthError (optStr (some "invalid_email")) (optStr (some "X")) =
      .str "Please enter a valid email address."
    ∧ mapAuthError (optStr none) (optStr (some "X")) = .str "X"
    ∧ mapAuthError (optStr (some "hasOwnProperty")) (optStr (some "X")) =
      .nativeFn "hasOwnProperty"
    ∧ mapAuthError (optStr (some "nonexistent_code")) (optStr none) =
      .str genericFallback := by
  refine ⟨(C3_mapError_precedence (some "invalid_email") (some "X")).2.1
      "invalid_email" _ rfl (by decide), ?_, ?_, ?_⟩
  · have h1 := (C3_mapError_precedence none (some "X")).1 (Or.inl rfl)
    have h2 := (C3_mapError_precedence none (some "X")).2.2.2.2.1 "X" rfl
      (by decide)
    rw [h1, h2]
  · exact (C3_mapError_precedence (some "hasOwnProperty") (some "X")).2.2.1
      "hasOwnProperty" _ rfl (by decide) rfl
  · have h1 := (C3_mapError_precedence (some "nonexistent_code") none).2.2.2.1
      "nonexistent_code" rfl (by decide) (by decide) rfl
    have h2 :=
      (C3_mapError_precedence (some "nonexistent_code") none).2.2.2.2.2
        (Or.inl rfl)
    rw [h1, h2]

/-- **C4 (counterexample).** The claim says an unrecognized code with no
default returns exactly the generic fallback.  `"toString"` is not one
of the fifteen documented codes, yet `mapError("toString")` returns the
inherited `Object.prototype.toString` function found by the bracket
access on the object literal — not the generic fallback string. -/
theorem C4_counterexample :
    mapAuthError (.str "toString") .undefined = .nativeFn "toString"
    ∧ JsValue.nativeFn "toString" ≠
        .str "An error occurred. Please try again." :=
  ⟨rfl, fun h => JsValue.noConfusion h⟩

/-- **C4 (amended).** For each of the fifteen documented codes,
`mapError(code)` returns exactly the message string listed in the spec's
table, and the generic fallback returned with no default is exactly
`"An error occurred. Please try again."` when the code is absent, and
when the code is unrecognized — provided it also does not name an
inherited `Object.prototype` member; a code that does name such a member
(`toString`, `constructor`, `hasOwnProperty`, …, `__proto__`) returns
that inherited member instead. -/
theorem C4_table_messages :
    mapAuthError (.str "invalid_credentials") .undefined =
      .str "Invalid email or password. Please check your credentials and try again."
    ∧ mapAuthError (.str "invalid_email") .undefined =
      .str "Please enter a valid email address."
    ∧ mapAuthError (.str "invalid_password") .undefined =
      .str "Password does not meet requirements. Please check the password policy."
    ∧ mapAuthError (.str "user_already_exists") .undefined =
      .str "An account with this email already exists. Please sign in instead."
    ∧ mapAuthError (.str "email_already_registered") .undefined =
      .str "An account with this email already exists. Please sign in instead."
    ∧ mapAuthError (.str "csrf_token_invalid") .undefined =
      .str "Security token expired. Please refresh the page and try again."
    ∧ mapAuthError (.str "csrf_token_missing") .undefined =
      .str "Security token missing. Please refresh the page and try again."
    ∧ mapAuthError (.str "csrf_token_expired") .undefined =
      .str "Security token expired. Please refresh the page and try again."
    ∧ mapAuthError (.str "rate_limit_exceeded") .undefined =
      .str "Too many attempts. Please wait a moment and try again."
    ∧ mapAuthError (.str "account_locked") .undefined =
      .str "Account temporarily locked due to multiple failed login attempts. Please try again in 15 minutes."
    ∧ mapAuthError (.str "account_suspended") .undefined =
      .str "Your account has been suspended. Please contact support for assistance."
    ∧ mapAuthError (.str "service_unavailable") .undefined =
      .str "Authentication service is temporarily unavailable. Please try again in a moment."
    ∧ mapAuthError (.str "internal_error") .undefined =
      .str "An unexpected error occurred. Please try again."
    ∧ mapAuthError (.str "network_error") .undefined =
      .str "Network error. Please check your connection and try again."
    ∧ mapAuthError (.str "timeout") .undefined =
      .str "Request timed out. Please try again."
    ∧ mapAuthError .undefined .undefined =
      .str "An error occurred. Please try again."
    ∧ (∀ s v, errorMap.lookup s = none → objectProtoLookup s = some v →
        mapAuthError (.str s) .undefined = v)
    ∧ ∀ s : String, s ≠ "" → errorMap.lookup s = none →
        objectProtoLookup s = none →
        mapAuthError (.str s) .undefined =
          .str "An error occurred. Please try again." := by
  refine ⟨rfl, rfl, rfl, rfl, rfl, rfl, rfl, rfl, rfl, rfl, rfl, rfl, rfl,
    rfl, rfl, rfl, ?_, ?_⟩
  · intro s v hown hp
    exact mapAuthError_proto hown hp _
  · intro s hs hown hp
    rw [mapAuthError_notFound hs hown hp, jsOr_of_falsy truthy_undefined]
    rfl

/-- Witness for C4 (amended): an unrecognized, non-inherited code with
no default yields the generic fallback, and a prototype-member code
yields the inherited function. -/
theorem C4_witness :
    mapAuthError (.str "nonexistent_code") .undefined =
      .str "An error occurred. Please try again."
    ∧ mapAuthError (.str "valueOf") .undefined = .nativeFn "valueOf" := by
  obtain ⟨-, -, -, -, -, -, -, -, -, -, -, -, -, -, -, -, hproto, hmiss⟩ :=
    C4_table_messages
  exact ⟨hmiss "nonexistent_code" (by decide) (by decide) rfl,
    hproto "valueOf" _ (by decide) rfl⟩

/-- **C5 (counterexample).** The claim says the returned code is the
object's code, falling back to `"unknown"` only when the code is absent
or null.  On the payload `{error: {code: "", message: "server text"}}`
the object's code is the empty string — neither absent nor null — yet
the returned code is `"unknown"`, not `""`. -/
theorem C5_counterexample :
    (extractAuthError (.obj [("error",
        .obj [("code", .str ""), ("message", .str "server text")])])).map
      AuthError.code = some (.str "unknown")
    ∧ JsValue.str "unknown" ≠ JsValue.str "" := by
  refine ⟨rfl, fun h => ?_⟩
  injection h with h2
  exact absurd h2 (by decide)

/-- **C5 (amended).** For every payload whose `error` field is an object,
`extractError` returns an `AuthError` whose code is the object's `code`
falling back to `"unknown"` whenever that code is falsy — absent, null,
the empty string, `0` or `false` — and whose message equals
`mapError(code, message)` for the returned code and the object's raw
`message` value; consequently, when the object's code is a recognized
table code, a server-supplied message is discarded in favor of the
canonical table message.  (The counterexample forces only the widening of
"absent or null" to "falsy", which adds the empty string.) -/
theorem C5_extract_object (data : JsValue) (efields : List (String × JsValue))
    (h1 : data.truthy = true) (h2 : data.typeof = "object")
    (herr : data.getField "error" = .obj efields) :
    extractAuthError data = some
      { code := jsOr ((JsValue.obj efields).getField "code") (.str "unknown"),
        message := mapAuthError
          (jsOr ((JsValue.obj efields).getField "code") (.str "unknown"))
          ((JsValue.obj efields).getField "message") }
    ∧ ∀ s m, (JsValue.obj efields).getField "code" = .str s →
        errorMap.lookup s = some m →
        (extractAuthError data).map AuthError.message = some (.str m) := by
  have hdec := extractAuthError_obj data efields h1 h2 herr
  constructor
  · rw [hdec, mapAuthError_absorb]
  · intro s m hcode hm
    have hs : s ≠ "" := by
      rintro rfl
      rw [errorMap_lookup_empty] at hm
    
      cases hm
    have hcode' :
        jsOr ((JsValue.obj efields).getField "code") (.str "unknown") =
          .str s := by
      rw [hcode]
      exact jsOr_of_truthy (by simp [truthy_str, hs]) _
    rw [hdec, mapAuthError_absorb, hcode', mapAuthError_table hm]
    rfl

/-- Witness for C5 (amended): the spec's own example — a recognized code
with a server-supplied message returns the canonical table message. -/
theorem C5_witness :
    (extractAuthError (.obj [("error",
        .obj [("code", .str "invalid_email"), ("message", .str "ignored")])])).map
      AuthError.message = some (.str "Please enter a valid email address.") :=
  (C5_extract_object
    (.obj [("error", .obj [("code", .str "invalid_email"), ("message", .str "ignored")])])
    [("code", .str "invalid_email"), ("message", .str "ignored")]
    rfl rfl rfl).2 "invalid_email" _ rfl (by decide)

/-- **C6.** For every payload whose `error` field is a non-empty string
`s`, `extractError` returns `{code: "unknown", message: s}` with the raw
string preserved verbatim and never passed through `mapError` (in
contrast to object-shaped errors, which are always remapped). -/
theorem C6_extract_string (data : JsValue) (s : String) (hs : s ≠ "")
    (h1 : data.truthy = true) (h2 : data.typeof = "object")
    (herr : data.getField "error" = .str s) :
    extractAuthError data =
      some { code := .str "unknown", message := .str s } := by
  have hguard : (!data.truthy || data.typeof != "object") = false := by
    rw [h1, h2]; rfl
  simp only [extractAuthError, hguard, herr]
  simp [JsValue.truthy, JsValue.typeof, hs]

/-- Witness for C6: the spec's example `{error: "plain text"}`. -/
theorem C6_witness :
    extractAuthError (.obj [("error", .str "plain text")]) =
      some { code := .str "unknown", message := .str "plain text" } :=
  C6_extract_string (.obj [("error", .str "plain text")]) "plain text"
    (by decide) rfl rfl rfl

/-- **C8.** `extractError` returns absent for every payload that is not a
structured object or that has no `error` field; in particular
`extractError({})`, `extractError(null)` and `extractError("string")` all
return absent. -/
theorem C8_extract_absent (data : JsValue) :
    (data.truthy = false → extractAuthError data = none)
    ∧ (data.typeof ≠ "object" → extractAuthError data = none)
    ∧ (data.getField "error" = .undefined → extractAuthError data = none)
    ∧ extractAuthError (.obj []) = none
    ∧ extractAuthError .null = none
    ∧ extractAuthError (.str "string") = none := by
  refine ⟨?_, ?_, ?_, rfl, rfl, rfl⟩
  · intro h
    simp [extractAuthError, h]
  · intro h
    simp [extractAuthError, h]
  · intro h
    cases hg : (!data.truthy || data.typeof != "object") with
    | true => simp [extractAuthError, hg]
    | false =>
      simp only [extractAuthError, hg, h]
      simp [JsValue.truthy]

/-- Witness for C8: a number payload and an object without an `error`
field both yield absent. -/
theorem C8_witness :
    extractAuthError (.num 7) = none
    ∧ extractAuthError (.obj [("x", .num 1)]) = none :=
  ⟨(C8_extract_absent (.num 7)).2.1 (by decide),
   (C8_extract_absent (.obj [("x", .num 1)])).2.2.1 rfl⟩

/-- **C9 (counterexample).** The claim says an `error` value that is
neither a proper string nor a well-formed object degrades to an
`AuthError` with the `"unknown"` code and the generic fallback message.
On `{error: 5}` — a truthy value that is neither string nor object —
the code instead returns absent (`null`), not an `AuthError`. -/
theorem C9_counterexample :
    extractAuthError (.obj [("error", .num 5)]) = none
    ∧ ∀ e : AuthError, extractAuthError (.obj [("error", .num 5)]) ≠ some e := by
  refine ⟨rfl, fun e h => ?_⟩
  rw [show extractAuthError (.obj [("error", .num 5)]) = none from rfl] at h
  cases h

/-- **C9 (amended).** `extractError` never throws — it is a total
function returning absent or an `AuthError` on every input; an `error`
value that is truthy but neither a string nor an object yields absent
rather than an `AuthError`; and an object-shaped `error` missing both
`code` and `message` degrades to the `"unknown"` code and the generic
fallback message. -/
theorem C9_extract_total (data : JsValue) :
    (extractAuthError data = none ∨ ∃ e, extractAuthError data = some e)
    ∧ ((data.getField "error").truthy = true →
        (data.getField "error").typeof ≠ "string" →
        (data.getField "error").typeof ≠ "object" →
        extractAuthError data = none)
    ∧ (∀ efields : List (String × JsValue), data.truthy = true →
        data.typeof = "object" → data.getField "error" = .obj efields →
        (JsValue.obj efields).getField "code" = .undefined →
        (JsValue.obj efields).getField "message" = .undefined →
        extractAuthError data = some
          { code := .str "unknown", message := .str genericFallback }) := by
  refine ⟨?_, ?_, ?_⟩
  · cases h : extractAuthError data with
    | none => exact Or.inl rfl
    | some e => exact Or.inr ⟨e, rfl⟩
  · intro ht hstr hobj
    cases hg : (!data.truthy || data.typeof != "object") with
    | true => simp [extractAuthError, hg]
    | false => simp [extractAuthError, hg, ht, hstr, hobj]
  · intro efields h1 h2 herr hcode hmsg
    rw [extractAuthError_obj data efields h1 h2 herr, hcode, hmsg,
      mapAuthError_absorb, jsOr_of_falsy truthy_undefined,
      mapAuthError_notFound (s := "unknown") (by decide) (by decide) rfl,
      jsOr_of_falsy truthy_undefined]

/-- Witness for C9 (amended): `{error: true}` yields absent; an empty
error object degrades to `"unknown"` plus the generic fallback. -/
theorem C9_witness :
    extractAuthError (.obj [("error", .bool true)]) = none
    ∧ extractAuthError (.obj [("error", .obj [])]) = some
        { code := .str "unknown", message := .str genericFallback } :=
  ⟨(C9_extract_total (.obj [("error", .bool true)])).2.1 rfl (by decide)
      (by decide),
   (C9_extract_total (.obj [("error", .obj [])])).2.2 [] rfl rfl rfl rfl rfl⟩

/-- **C10.** In `extractError`'s object branch, an empty-string value is
treated the same as an absent value: if `error.code` is the empty string
the returned code is `"unknown"`, and if `error.message` is the empty
string it is replaced by the mapped message, so
`extractError({error: {code: "", message: ""}})` returns
`{code: "unknown", message: "An error occurred. Please try again."}`. -/
theorem C10_empty_string_fields (data : JsValue)
    (efields : List (String × JsValue)) :
    (extractAuthError
        (.obj [("error", .obj [("code", .str ""), ("message", .str "")])]) =
      some { code := .str "unknown",
             message := .str "An error occurred. Please try again." })
    ∧ (data.truthy = true → data.typeof = "object" →
        data.getField "error" = .obj efields →
        (JsValue.obj efields).getField "code" = .str "" →
        (extractAuthError data).map AuthError.code = some (.str "unknown"))
    ∧ (data.truthy = true → data.typeof = "object" →
        data.getField "error" = .obj efields →
        (JsValue.obj efields).getField "message" = .str "" →
        (extractAuthError data).map AuthError.message = some (mapAuthError
          (jsOr ((JsValue.obj efields).getField "code") (.str "unknown"))
          .undefined)) := by
  refine ⟨rfl, ?_, ?_⟩
  · intro h1 h2 herr hcode
    rw [extractAuthError_obj data efields h1 h2 herr, hcode,
      jsOr_of_falsy (a := JsValue.str "") rfl]
    rfl
  · intro h1 h2 herr hmsg
    rw [extractAuthError_obj data efields h1 h2 herr, hmsg,
      jsOr_of_falsy (a := JsValue.str "") rfl, mapAuthError_idem]
    rfl

/-- Witness for C10: an empty-string code maps to `"unknown"`, and an
empty-string message is replaced by the mapped message. -/
theorem C10_witness :
    (extractAuthError (.obj [("error",
        .obj [("code", .str ""), ("message", .str "x")])])).map
      AuthError.code = some (.str "unknown")
    ∧ (extractAuthError (.obj [("error",
        .obj [("code", .str "timeout"), ("message", .str "")])])).map
      AuthError.message = some (mapAuthError
        (jsOr ((JsValue.obj [("code", .str "timeout"), ("message", .str "")]).getField
          "code") (.str "unknown"))
        .undefined) :=
  ⟨(C10_empty_string_fields
      (.obj [("error", .obj [("code", .str ""), ("message", .str "x")])])
      [("code", .str ""), ("message", .str "x")]).2.1 rfl rfl rfl rfl,
   (C10_empty_string_fields
      (.obj [("error", .obj [("code", .str "timeout"), ("message", .str "")])])
      [("code", .str "timeout"), ("message", .str "")]).2.2 rfl rfl rfl rfl⟩
